import Mathlib

/-!
Shallow embedding of dmenu-mounter.py.

The script enumerates block devices via lsblk, lets the user pick one with
dmenu, and mounts or unmounts it through a privileged command.  External
collaborators (lsblk output, dmenu, the privilege tools, the tabulate
rendering, filesystem probes) are modelled as fields of an environment
record; the script's own logic is translated function by function.
Timestamps are modelled as integers since only their ordering is used.
Python exceptions and the Fatal-message early exit are modelled explicitly.
-/

namespace DmenuMounter

/-- Severity levels of the `message` helper (class MessageType in the source). -/
inductive MessageType where
  | Info
  | Error
  | Fatal
deriving DecidableEq, Repr

/-- Result of running an external command with output capture
(`subprocess.run` with stdout=PIPE, stderr=STDOUT). -/
structure CmdResult where
  returncode : Int
  stdout : String
deriving DecidableEq, Repr

/-- The Device dataclass.  `mtime` is `none` when `os.path.getmtime` raised
OSError (the source stores Python None in that case). -/
structure Device where
  path : String
  filesystem : Option String
  label : Option String
  uuid : Option String
  mountpoint : Option String
  size : String
  mtime : Option Int
deriving DecidableEq, Repr

/-- The `mounted` property: true iff mountpoint is present. -/
def Device.mounted (d : Device) : Bool :=
  d.mountpoint.isSome

/-- Device.to_short_string: path, with the label in parentheses when present. -/
def Device.to_short_string (d : Device) : String :=
  match d.label with
  | none => d.path
  | some l => d.path ++ " (" ++ l ++ ")"

/-- How a control-flow departure from straight-line Python is observed:
either `message(..., MessageType.Fatal)` ran (which calls `sys.exit(1)`), or
an uncaught Python exception propagated (the interpreter then exits nonzero
with a traceback). -/
inductive Abort where
  | fatalExit (msg : String)
  | uncaught (msg : String)
deriving DecidableEq, Repr

/-- One row of the parsed lsblk JSON (`devices_json["blockdevices"]`). -/
structure LsblkEntry where
  path : String
  fstype : Option String
  label : Option String
  uuid : Option String
  mountpoint : Option String
  size : String
deriving DecidableEq, Repr

/-- Construction of a Device from an lsblk row, with the mtime looked up from
the filesystem (modelled by the oracle `mtimeOf`; `none` models the OSError
branch that stores None). -/
def mkDevice (mtimeOf : String → Option Int) (e : LsblkEntry) : Device :=
  { path := e.path
    filesystem := e.fstype
    label := e.label
    uuid := e.uuid
    mountpoint := e.mountpoint
    size := e.size
    mtime := mtimeOf e.path }

/-- The filtering loop of handled_devices: skip rows whose fstype is None or
the string swap, keep everything else in order. -/
def deviceLoop (mtimeOf : String → Option Int) : List LsblkEntry → List Device
  | [] => []
  | e :: es =>
    if e.fstype = none ∨ e.fstype = some "swap" then
      deviceLoop mtimeOf es
    else
      mkDevice mtimeOf e :: deviceLoop mtimeOf es

/-- Python 3 comparison of two sort keys (the mtime fields).  Comparing a
float with None raises TypeError, which the source does not catch. -/
def pyLtKey (a b : Option Int) : Except String Bool :=
  match a, b with
  | some x, some y => Except.ok (decide (x < y))
  | _, _ => Except.error "TypeError: unorderable float and NoneType"

/-- Insert a device into a list already sorted descending by mtime, keeping
elements with an equal or larger key in front (the stable placement that
CPython's sorted with reverse=True produces).  Errors propagate as CPython's
sort aborts on the first failing key comparison. -/
def insertDesc (d : Device) : List Device → Except String (List Device)
  | [] => Except.ok [d]
  | x :: xs =>
    match pyLtKey x.mtime d.mtime with
    | Except.error e => Except.error e
    | Except.ok true => Except.ok (d :: x :: xs)
    | Except.ok false =>
      match insertDesc d xs with
      | Except.error e => Except.error e
      | Except.ok rest => Except.ok (x :: rest)

/-- Stable descending insertion sort threading the fallible comparison. -/
def pySortDescAux : List Device → List Device → Except String (List Device)
  | acc, [] => Except.ok acc
  | acc, d :: ds =>
    match insertDesc d acc with
    | Except.error e => Except.error e
    | Except.ok acc2 => pySortDescAux acc2 ds

/-- Model of `sorted(result, key=lambda d: d.mtime, reverse=True)`: a stable
descending sort on the mtime key that raises iff CPython would, namely iff
the list has at least two elements and some key is None. -/
def pySortDesc (l : List Device) : Except String (List Device) :=
  pySortDescAux [] l

/-- The environment a whole run of the script observes. -/
structure World where
  /-- os.path.ismount applied to the fixed target directory /mnt. -/
  mntIsMount : Bool
  /-- Exit status of the lsblk invocation. -/
  lsblkReturncode : Int
  /-- Captured combined output of lsblk (surfaced in the fatal diagnostic). -/
  lsblkStdout : String
  /-- The parsed blockdevices array of the lsblk JSON. -/
  lsblkEntries : List LsblkEntry
  /-- os.path.getmtime per device path; none models OSError. -/
  mtimeOf : String → Option Int
  /-- devices_to_table: the tabulate rendering of a device list into menu
  rows, an external formatting collaborator. -/
  render : List Device → List String
  /-- Exit status of dmenu. -/
  dmenuExit : Int
  /-- The line dmenu printed, already stripped of its trailing newline. -/
  dmenuOut : String
  /-- os.geteuid(). -/
  euid : Nat
  /-- Whether the non-interactive probe `sudo -n -v` exited 0. -/
  sudoCached : Bool
  /-- shutil.which. -/
  which : String → Option String
  /-- Whether the pkexec binary exists; running it when absent raises
  FileNotFoundError, which the source catches. -/
  pkexecInstalled : Bool
  /-- sys.stdin.isatty(). -/
  stdinTty : Bool
  /-- Outcome of actually running an argv with output capture. -/
  run : List String → CmdResult

/-- handled_devices: fatal if lsblk failed, otherwise filter the rows and
sort by mtime descending (the sort can raise, see pyLtKey). -/
def handled_devices (w : World) : Except Abort (List Device) :=
  if w.lsblkReturncode ≠ 0 then
    Except.error (Abort.fatalExit
      ("Can\x27t get block devices with lsblk:\n" ++ w.lsblkStdout))
  else
    match pySortDesc (deviceLoop w.mtimeOf w.lsblkEntries) with
    | Except.error e => Except.error (Abort.uncaught e)
    | Except.ok devs => Except.ok devs

/-- Python dict built from a pair list (later pairs overwrite earlier ones),
then .get with default None. -/
def dict_get (pairs : List (String × Device)) (k : String) : Option Device :=
  (pairs.reverse.find? (fun p => p.1 == k)).map Prod.snd

/-- dmenu_choose composed with choose_device: zip menu rows with devices,
run dmenu, and look the printed line up in the dict; anything unexpected
gives None. -/
def choose_device (w : World) (devs : List Device) : Option Device :=
  if w.dmenuExit = 0 then
    dict_get ((w.render devs).zip devs) w.dmenuOut
  else
    none

/-- The probes call_privileged_command may perform before settling on a
strategy, in source order. -/
inductive PrivStep where
  | sudoProbe
  | whichProbe
  | ttyProbe
deriving DecidableEq, Repr

/-- What call_privileged_command did in the end: ran some argv and returned
its captured result, reported the fatal no-strategy diagnostic (exiting 1),
or let a Python exception escape. -/
inductive PrivCallResult where
  | ran (argv : List String) (res : CmdResult)
  | fatal (msg : String)
  | exc (msg : String)
deriving DecidableEq, Repr

/-- The diagnostic of the final fallback branch. -/
def noRootMsg : String :=
  "Can\x27t execute commands as root. Run this script as root, in a " ++
  "terminal, or install pkexec."

/-- Process-level effect of a PrivCallResult: both the Fatal message path
(sys.exit(1)) and an uncaught exception end the process with status 1, while
a ran command returns control to the caller. -/
def privProcessEffect : PrivCallResult → Option Nat
  | PrivCallResult.ran _ _ => none
  | PrivCallResult.fatal _ => some 1
  | PrivCallResult.exc _ => some 1

/-- call_privileged_command: the ordered fallback chain.  Returns the probes
performed and the outcome.  With euid 0 the command runs as given; otherwise
cached sudo, then pkexec (tolerating both an unresolvable program and a
missing pkexec binary), then interactive sudo on a TTY, else the fatal
diagnostic.  An empty command reaches the subscript in the pkexec branch and
raises IndexError, which the except clause for FileNotFoundError does not
catch. -/
def call_privileged_command (w : World) (command : List String) :
    List PrivStep × PrivCallResult :=
  if w.euid = 0 then
    ([], PrivCallResult.ran command (w.run command))
  else if w.sudoCached then
    ([PrivStep.sudoProbe],
     PrivCallResult.ran (["sudo", "--"] ++ command)
       (w.run (["sudo", "--"] ++ command)))
  else
    match command with
    | [] => ([PrivStep.sudoProbe], PrivCallResult.exc "IndexError")
    | c0 :: rest =>
      let viaPkexec : Option PrivCallResult :=
        match w.which c0 with
        | some p =>
          if w.pkexecInstalled then
            some (PrivCallResult.ran ("pkexec" :: p :: rest)
              (w.run ("pkexec" :: p :: rest)))
          else
            none
        | none => none
      match viaPkexec with
      | some r => ([PrivStep.sudoProbe, PrivStep.whichProbe], r)
      | none =>
        if w.stdinTty then
          ([PrivStep.sudoProbe, PrivStep.whichProbe, PrivStep.ttyProbe],
           PrivCallResult.ran (["sudo", "--"] ++ command)
             (w.run (["sudo", "--"] ++ command)))
        else
          ([PrivStep.sudoProbe, PrivStep.whichProbe, PrivStep.ttyProbe],
           PrivCallResult.fatal noRootMsg)

/-- The MountRule dataclass after parse_args.  The compiled condition is an
arbitrary Python expression evaluated over the selected device's path,
filesystem, label and uuid, so it is modelled as a function from those four
fields; an error value models the exception branch of the eval call.
parse_mount_rule guarantees the args dict carries at most the key
mount_args with a list value, so the dict is modelled as that optional
list. -/
structure MountRule where
  condition : String → Option String → Option String → Option String →
    Except String Bool
  mount_args : Option (List String)

/-- The rule loop of select_and_mount.  argparse gives the mount subcommand's
repeatable rule option the default None when it never occurs, so the rules
argument is an optional list; iterating over None raises TypeError.  A
condition that raises turns into the fatal configuration diagnostic; the
first true condition supplies its mount_args (default empty list) and the
loop breaks; extra_args stays empty when nothing matches. -/
def rule_loop (d : Device) : List MountRule → Except Abort (List String)
  | [] => Except.ok []
  | r :: rest =>
    match r.condition d.path d.filesystem d.label d.uuid with
    | Except.error e =>
      Except.error (Abort.fatalExit
        ("Can\x27t evaluate mount rule condition:\n" ++ e))
    | Except.ok true => Except.ok (r.mount_args.getD [])
    | Except.ok false => rule_loop d rest

/-- Entry into the rule loop, handling the None that argparse leaves when the
mount subcommand was given no rule option at all. -/
def match_rules (rules : Option (List MountRule)) (d : Device) :
    Except Abort (List String) :=
  match rules with
  | none => Except.error (Abort.uncaught "TypeError: NoneType is not iterable")
  | some rs => rule_loop d rs

/-- How one invocation of select_and_mount or select_and_unmount ends:
a normal return (the process then exits 0), the exit(1) of a Fatal message,
or an uncaught Python exception (the interpreter exits nonzero). -/
inductive RunOutcome where
  | finished
  | fatalExit
  | exception (msg : String)
deriving DecidableEq, Repr

/-- Process exit status implied by a RunOutcome. -/
def RunOutcome.processExit : RunOutcome → Nat
  | RunOutcome.finished => 0
  | RunOutcome.fatalExit => 1
  | RunOutcome.exception _ => 1

/-- Observable trace of one invocation: whether the device-listing command
ran, every command handed to call_privileged_command, the messages shown
with their severities, and how the run ended. -/
structure RunResult where
  ranLsblk : Bool
  privRequests : List (List String)
  messages : List (String × MessageType)
  outcome : RunOutcome
deriving DecidableEq, Repr

/-- Python str.rstrip() on the captured output before it is shown. -/
def pyRstrip (s : String) : String :=
  s.trimRight

/-- The candidates offered by the mount menu: devices that are not mounted. -/
def mount_candidates (devs : List Device) : List Device :=
  devs.filter (fun d => !d.mounted)

/-- The candidates offered by the unmount menu: mounted devices whose
mountpoint is not the root directory. -/
def unmount_candidates (devs : List Device) : List Device :=
  devs.filter (fun d => d.mounted && d.mountpoint != some "/")

/-- Reporting branch after the privileged mount command: messages shown and
how the run ends.  On a nonzero exit status the source calls to_stort_string,
an attribute the Device class does not define, so Python raises
AttributeError there instead of showing the failure message. -/
def mount_report (selected : Device) (res : PrivCallResult) :
    List (String × MessageType) × RunOutcome :=
  match res with
  | PrivCallResult.fatal m => ([(m, MessageType.Fatal)], RunOutcome.fatalExit)
  | PrivCallResult.exc m => ([], RunOutcome.exception m)
  | PrivCallResult.ran _ r =>
    if r.returncode = 0 then
      ([("Mounted " ++ selected.to_short_string ++ " on /mnt",
          MessageType.Info)],
       RunOutcome.finished)
    else
      ([],
       RunOutcome.exception
         "AttributeError: Device has no attribute to_stort_string")

/-- The tail of select_and_mount once a device has been selected: match the
rules, build the mount command, run it through call_privileged_command, and
report via mount_report. -/
def mount_after_selection (w : World) (rules : Option (List MountRule))
    (selected : Device) : RunResult :=
  match match_rules rules selected with
  | Except.error (Abort.fatalExit m) =>
    { ranLsblk := true, privRequests := [],
      messages := [(m, MessageType.Fatal)], outcome := RunOutcome.fatalExit }
  | Except.error (Abort.uncaught m) =>
    { ranLsblk := true, privRequests := [], messages := [],
      outcome := RunOutcome.exception m }
  | Except.ok extra_args =>
    let cmd := ["mount"] ++ extra_args ++ ["--", selected.path, "/mnt"]
    let rep := mount_report selected (call_privileged_command w cmd).2
    { ranLsblk := true, privRequests := [cmd],
      messages := rep.1, outcome := rep.2 }

/-- select_and_mount: fatal if /mnt is already a mount point (before any
enumeration), then enumerate, keep unmounted candidates, let the user choose,
and mount the selection. -/
def select_and_mount (w : World) (rules : Option (List MountRule)) :
    RunResult :=
  if w.mntIsMount then
    { ranLsblk := false, privRequests := [],
      messages := [("Something is already mounted on /mnt", MessageType.Fatal)],
      outcome := RunOutcome.fatalExit }
  else
    match handled_devices w with
    | Except.error (Abort.fatalExit m) =>
      { ranLsblk := true, privRequests := [],
        messages := [(m, MessageType.Fatal)], outcome := RunOutcome.fatalExit }
    | Except.error (Abort.uncaught m) =>
      { ranLsblk := true, privRequests := [], messages := [],
        outcome := RunOutcome.exception m }
    | Except.ok devs =>
      let candidates := mount_candidates devs
      if candidates.isEmpty then
        { ranLsblk := true, privRequests := [],
          messages := [("No device to mount", MessageType.Info)],
          outcome := RunOutcome.finished }
      else
        match choose_device w candidates with
        | none =>
          { ranLsblk := true, privRequests := [], messages := [],
            outcome := RunOutcome.finished }
        | some selected => mount_after_selection w rules selected

/-- Reporting branch after the privileged unmount command.  Unlike the mount
flow, this error path uses the correctly spelled to_short_string and appends
the command's captured output. -/
def unmount_report (selected : Device) (res : PrivCallResult) :
    List (String × MessageType) × RunOutcome :=
  match res with
  | PrivCallResult.fatal m => ([(m, MessageType.Fatal)], RunOutcome.fatalExit)
  | PrivCallResult.exc m => ([], RunOutcome.exception m)
  | PrivCallResult.ran _ r =>
    if r.returncode = 0 then
      ([("Unmounted " ++ selected.to_short_string, MessageType.Info)],
       RunOutcome.finished)
    else
      ([("Failed to unmount " ++ selected.to_short_string ++
          ":\n" ++ pyRstrip r.stdout, MessageType.Error)],
       RunOutcome.finished)

/-- The tail of select_and_unmount once a device has been selected. -/
def unmount_after_selection (w : World) (selected : Device) : RunResult :=
  let cmd := ["umount", "--", selected.path]
  let rep := unmount_report selected (call_privileged_command w cmd).2
  { ranLsblk := true, privRequests := [cmd],
    messages := rep.1, outcome := rep.2 }

/-- select_and_unmount: enumerate, keep mounted candidates that are not the
root mount, let the user choose, and unmount the selection. -/
def select_and_unmount (w : World) : RunResult :=
  match handled_devices w with
  | Except.error (Abort.fatalExit m) =>
    { ranLsblk := true, privRequests := [],
      messages := [(m, MessageType.Fatal)], outcome := RunOutcome.fatalExit }
  | Except.error (Abort.uncaught m) =>
    { ranLsblk := true, privRequests := [], messages := [],
      outcome := RunOutcome.exception m }
  | Except.ok devs =>
    let candidates := unmount_candidates devs
    if candidates.isEmpty then
      { ranLsblk := true, privRequests := [],
        messages := [("No device to unmount", MessageType.Info)],
        outcome := RunOutcome.finished }
    else
      match choose_device w candidates with
      | none =>
        { ranLsblk := true, privRequests := [], messages := [],
          outcome := RunOutcome.finished }
      | some selected => unmount_after_selection w selected

/-- A quiet default environment; concrete scenarios override fields. -/
def baseWorld : World :=
  { mntIsMount := false
    lsblkReturncode := 0
    lsblkStdout := ""
    lsblkEntries := []
    mtimeOf := fun _ => some 0
    render := fun devs => devs.map Device.path
    dmenuExit := 0
    dmenuOut := ""
    euid := 0
    sudoCached := false
    which := fun _ => none
    pkexecInstalled := false
    stdinTty := false
    run := fun _ => { returncode := 0, stdout := "" } }

/-- An unmounted vfat partition as lsblk reports it. -/
def entryUsb : LsblkEntry :=
  { path := "/dev/sdb1"
    fstype := some "vfat"
    label := some "USB"
    uuid := some "AAAA-BBBB"
    mountpoint := none
    size := "8G" }

/-- Claim C9: with effective UID 0 the command is executed directly, with no
wrapping program prepended and no sudo, pkexec or terminal probe. -/
theorem C9_elevated_runs_directly (w : World) (command : List String)
    (h : w.euid = 0) :
    call_privileged_command w command =
      ([], PrivCallResult.ran command (w.run command)) := by
  simp [call_privileged_command, h]

theorem C9_elevated_runs_directly_witness :
    baseWorld.euid = 0 ∧
    call_privileged_command baseWorld ["mount", "--", "/dev/sdb1", "/mnt"] =
      ([], PrivCallResult.ran ["mount", "--", "/dev/sdb1", "/mnt"]
        { returncode := 0, stdout := "" }) :=
  ⟨rfl, C9_elevated_runs_directly baseWorld ["mount", "--", "/dev/sdb1", "/mnt"] rfl⟩

/-- Claim C1: not elevated, no cached sudo, the pkexec path unable to execute
(program not resolvable or pkexec absent), and stdin not a terminal: the call
reports the fatal diagnostic, the process exits with status 1, and no command
is ever executed. -/
theorem C1_no_strategy_is_fatal (w : World) (c0 : String) (rest : List String)
    (h0 : w.euid ≠ 0) (h1 : w.sudoCached = false)
    (h2 : w.which c0 = none ∨ w.pkexecInstalled = false)
    (h3 : w.stdinTty = false) :
    (call_privileged_command w (c0 :: rest)).2 = PrivCallResult.fatal noRootMsg ∧
    privProcessEffect (call_privileged_command w (c0 :: rest)).2 = some 1 ∧
    ∀ argv res,
      (call_privileged_command w (c0 :: rest)).2 ≠ PrivCallResult.ran argv res := by
  have hmain :
      (call_privileged_command w (c0 :: rest)).2 = PrivCallResult.fatal noRootMsg := by
    rcases h2 with h2 | h2
    · simp [call_privileged_command, h0, h1, h2, h3]
    · cases hw : w.which c0 with
      | none => simp [call_privileged_command, h0, h1, hw, h3]
      | some p => simp [call_privileged_command, h0, h1, hw, h2, h3]
  refine ⟨hmain, ?_, ?_⟩
  · rw [hmain]
    rfl
  · intro argv res
    rw [hmain]
    intro hcontra
    cases hcontra

/-- A non-root environment with no elevation strategy available. -/
def lockedWorld : World :=
  { baseWorld with euid := 1000 }

theorem C1_no_strategy_is_fatal_witness :
    lockedWorld.euid ≠ 0 ∧ lockedWorld.sudoCached = false ∧
    lockedWorld.which "mount" = none ∧ lockedWorld.stdinTty = false ∧
    (call_privileged_command lockedWorld ["mount", "--", "/dev/sdb1", "/mnt"]).2 =
      PrivCallResult.fatal noRootMsg :=
  ⟨by decide, rfl, rfl, rfl,
    (C1_no_strategy_is_fatal lockedWorld "mount" ["--", "/dev/sdb1", "/mnt"]
      (by decide) rfl (Or.inl rfl) rfl).1⟩

/-- Claim C7: when /mnt is already a mount point, the mount subcommand is
fatal with exit status 1 and the device-listing command never runs. -/
theorem C7_busy_target_fatal_before_enumeration (w : World)
    (rules : Option (List MountRule)) (h : w.mntIsMount = true) :
    select_and_mount w rules =
      { ranLsblk := false, privRequests := [],
        messages := [("Something is already mounted on /mnt", MessageType.Fatal)],
        outcome := RunOutcome.fatalExit } ∧
    (select_and_mount w rules).outcome.processExit = 1 := by
  have hm : select_and_mount w rules =
      { ranLsblk := false, privRequests := [],
        messages := [("Something is already mounted on /mnt", MessageType.Fatal)],
        outcome := RunOutcome.fatalExit } := by
    simp [select_and_mount, h]
  exact ⟨hm, by rw [hm]; rfl⟩

/-- A world whose fixed mount target is already occupied. -/
def busyMntWorld : World :=
  { baseWorld with mntIsMount := true }

theorem C7_busy_target_fatal_before_enumeration_witness :
    busyMntWorld.mntIsMount = true ∧
    select_and_mount busyMntWorld none =
      { ranLsblk := false, privRequests := [],
        messages := [("Something is already mounted on /mnt", MessageType.Fatal)],
        outcome := RunOutcome.fatalExit } :=
  ⟨rfl, (C7_busy_target_fatal_before_enumeration busyMntWorld none rfl).1⟩

/-- A run in which the user selects the vfat partition and the privileged
mount command fails with output wrong fs type. -/
def mountFailWorld : World :=
  { baseWorld with
    lsblkEntries := [entryUsb]
    dmenuOut := "/dev/sdb1"
    run := fun _ => { returncode := 1, stdout := "wrong fs type" } }

/-- A rule whose compiled condition evaluates to False on every device. -/
def ruleNever : MountRule :=
  { condition := fun _ _ _ _ => Except.ok false
    mount_args := some ["-o", "never"] }

/-- Claim C2, counterexample on the code: when the mount command exits
nonzero, line 297 calls the undefined attribute to_stort_string, so Python
raises AttributeError: no Error message carrying the captured output is
shown, and the process exit status is nonzero rather than 0. -/
theorem C2_mount_failure_raises_attribute_error :
    (select_and_mount mountFailWorld (some [ruleNever])).outcome =
      RunOutcome.exception
        "AttributeError: Device has no attribute to_stort_string" ∧
    (select_and_mount mountFailWorld (some [ruleNever])).messages = [] ∧
    (select_and_mount mountFailWorld (some [ruleNever])).outcome.processExit ≠ 0 :=
  ⟨rfl, rfl, by decide⟩

/-- An enumeration in which one device has a readable mtime and another's
mtime probe raised OSError. -/
def mixedMtimeWorld : World :=
  { baseWorld with
    lsblkEntries :=
      [entryUsb,
       { path := "/dev/sdc1"
         fstype := some "ext4"
         label := none
         uuid := some "CCCC-DDDD"
         mountpoint := none
         size := "16G" }]
    mtimeOf := fun p => if p == "/dev/sdb1" then some 100 else none }

/-- Claim C3, counterexample on the code: both devices survive the filter,
but sorting a known mtime against a None mtime raises TypeError in Python 3,
so enumeration aborts with an uncaught exception instead of placing the
unknown-mtime device last. -/
theorem C3_unknown_mtime_raises_type_error :
    (deviceLoop mixedMtimeWorld.mtimeOf mixedMtimeWorld.lsblkEntries).length = 2 ∧
    handled_devices mixedMtimeWorld =
      Except.error (Abort.uncaught "TypeError: unorderable float and NoneType") ∧
    (select_and_unmount mixedMtimeWorld).outcome.processExit = 1 :=
  ⟨rfl, rfl, rfl⟩

/-- A run of the mount subcommand given without any rule option: argparse
stores None for the repeatable rule option. -/
def noRuleWorld : World :=
  { baseWorld with
    lsblkEntries := [entryUsb]
    dmenuOut := "/dev/sdb1" }

/-- Claim C4, counterexample on the code: with zero rules configured the
rules value is None, and iterating over it raises TypeError after the user
selects a device, so no mount command is ever issued and the process dies
with a traceback instead of proceeding with empty extra arguments. -/
theorem C4_zero_rules_raises_type_error :
    (select_and_mount noRuleWorld none).outcome =
      RunOutcome.exception "TypeError: NoneType is not iterable" ∧
    (select_and_mount noRuleWorld none).privRequests = [] ∧
    (select_and_mount noRuleWorld none).outcome.processExit ≠ 0 :=
  ⟨rfl, rfl, by decide⟩

/-- Claim C5: the first rule whose condition evaluates true supplies the
extra arguments; all later rules are ignored. -/
theorem C5_first_matching_rule_wins (rs1 : List MountRule) (r : MountRule)
    (rs2 : List MountRule) (d : Device)
    (h1 : ∀ r2 ∈ rs1,
      r2.condition d.path d.filesystem d.label d.uuid = Except.ok false)
    (h2 : r.condition d.path d.filesystem d.label d.uuid = Except.ok true) :
    match_rules (some (rs1 ++ r :: rs2)) d = Except.ok (r.mount_args.getD []) := by
  induction rs1 with
  | nil =>
    simp [match_rules, rule_loop, h2]
  | cons a as ih =>
    have ha := h1 a (List.mem_cons_self a as)
    have ih2 := ih (fun r2 hr2 => h1 r2 (List.mem_cons_of_mem a hr2))
    simp [match_rules, rule_loop, ha] at ih2 ⊢
    exact ih2

/-- A rule whose compiled condition evaluates to True on every device,
requesting read-only mounting. -/
def ruleRo : MountRule :=
  { condition := fun _ _ _ _ => Except.ok true
    mount_args := some ["-o", "ro"] }

/-- A rule whose compiled condition evaluates to True on every device,
requesting read-write mounting. -/
def ruleRw : MountRule :=
  { condition := fun _ _ _ _ => Except.ok true
    mount_args := some ["-o", "rw"] }

/-- The device built from the vfat lsblk row with a known mtime. -/
def usbDevice : Device :=
  mkDevice (fun _ => some 0) entryUsb

theorem C5_first_matching_rule_wins_witness :
    ruleNever.condition usbDevice.path usbDevice.filesystem usbDevice.label
      usbDevice.uuid = Except.ok false ∧
    ruleRo.condition usbDevice.path usbDevice.filesystem usbDevice.label
      usbDevice.uuid = Except.ok true ∧
    match_rules (some ([ruleNever] ++ ruleRo :: [ruleRw])) usbDevice =
      Except.ok ["-o", "ro"] :=
  ⟨rfl, rfl,
    C5_first_matching_rule_wins [ruleNever] ruleRo [ruleRw] usbDevice
      (by
        intro r2 hr2
        rw [List.mem_singleton] at hr2
        subst hr2
        rfl)
      rfl⟩

theorem insertDesc_perm (d : Device) (l : List Device) :
    ∀ out, insertDesc d l = Except.ok out → List.Perm out (d :: l) := by
  induction l with
  | nil =>
    intro out h
    simp [insertDesc] at h
    subst h
    exact List.Perm.refl _
  | cons x xs ih =>
    intro out h
    unfold insertDesc at h
    cases hk : pyLtKey x.mtime d.mtime with
    | error e => simp [hk] at h
    | ok b =>
      cases b with
      | true =>
        simp [hk] at h
        subst h
        exact List.Perm.refl _
      | false =>
        simp [hk] at h
        cases hr : insertDesc d xs with
        | error e => simp [hr] at h
        | ok rest =>
          simp [hr] at h
          subst h
          exact ((ih rest hr).cons x).trans (List.Perm.swap d x xs)

theorem pySortDescAux_perm (ds : List Device) :
    ∀ acc out, pySortDescAux acc ds = Except.ok out →
      List.Perm out (acc ++ ds) := by
  induction ds with
  | nil =>
    intro acc out h
    simp [pySortDescAux] at h
    subst h
    simp
  | cons d ds ih =>
    intro acc out h
    unfold pySortDescAux at h
    cases hr : insertDesc d acc with
    | error e => simp [hr] at h
    | ok acc2 =>
      simp [hr] at h
      have hins := insertDesc_perm d acc acc2 hr
      exact (ih acc2 out h).trans
        ((hins.append_right ds).trans List.perm_middle.symm)

/-- Membership is unchanged by the sort whenever it succeeds. -/
theorem pySortDesc_mem (l out : List Device)
    (h : pySortDesc l = Except.ok out) : ∀ d, d ∈ out ↔ d ∈ l := by
  intro d
  have hp := pySortDescAux_perm l [] out h
  rw [List.nil_append] at hp
  exact hp.mem_iff

/-- Everything the filtering loop keeps has a present fstype other than
swap. -/
theorem deviceLoop_mem_filtered (m : String → Option Int)
    (es : List LsblkEntry) :
    ∀ d ∈ deviceLoop m es, d.filesystem ≠ none ∧ d.filesystem ≠ some "swap" := by
  induction es with
  | nil =>
    intro d hd
    cases hd
  | cons e es ih =>
    intro d hd
    unfold deviceLoop at hd
    by_cases he : e.fstype = none ∨ e.fstype = some "swap"
    · rw [if_pos he] at hd
      exact ih d hd
    · rw [if_neg he] at hd
      push_neg at he
      cases hd with
      | head => exact ⟨he.1, he.2⟩
      | tail _ hd2 => exact ih d hd2

/-- Every lsblk row with a present, non-swap fstype survives the filtering
loop as the corresponding Device. -/
theorem deviceLoop_mem_of_entry (m : String → Option Int)
    (es : List LsblkEntry) (e : LsblkEntry) (he : e ∈ es)
    (h1 : e.fstype ≠ none) (h2 : e.fstype ≠ some "swap") :
    mkDevice m e ∈ deviceLoop m es := by
  induction es with
  | nil => cases he
  | cons a as ih =>
    unfold deviceLoop
    cases he with
    | head =>
      rw [if_neg (not_or.mpr ⟨h1, h2⟩)]
      exact List.mem_cons_self _ _
    | tail _ he2 =>
      by_cases ha : a.fstype = none ∨ a.fstype = some "swap"
      · rw [if_pos ha]
        exact ih he2
      · rw [if_neg ha]
        exact List.mem_cons_of_mem _ (ih he2)

/-- Claim C6: whenever enumeration succeeds, no returned device lacks a
filesystem type or has the swap type, and every reported row with a present
non-swap type is included. -/
theorem C6_enumeration_filters_exactly (w : World) (devs : List Device)
    (h : handled_devices w = Except.ok devs) :
    (∀ d ∈ devs, d.filesystem ≠ none ∧ d.filesystem ≠ some "swap") ∧
    (∀ e ∈ w.lsblkEntries, e.fstype ≠ none → e.fstype ≠ some "swap" →
      mkDevice w.mtimeOf e ∈ devs) := by
  unfold handled_devices at h
  by_cases hrc : w.lsblkReturncode ≠ 0
  · rw [if_pos hrc] at h
    cases h
  · rw [if_neg hrc] at h
    cases hs : pySortDesc (deviceLoop w.mtimeOf w.lsblkEntries) with
    | error e => simp [hs] at h
    | ok l =>
      simp [hs] at h
      subst h
      have hmem := pySortDesc_mem _ _ hs
      constructor
      · intro d hd
        exact deviceLoop_mem_filtered w.mtimeOf w.lsblkEntries d
          ((hmem d).mp hd)
      · intro e he h1 h2
        exact (hmem (mkDevice w.mtimeOf e)).mpr
          (deviceLoop_mem_of_entry w.mtimeOf w.lsblkEntries e he h1 h2)

/-- An enumeration carrying a swap partition, a bare disk with no
filesystem, and the vfat partition. -/
def filterWorld : World :=
  { baseWorld with
    lsblkEntries :=
      [{ path := "/dev/sda"
         fstype := none
         label := none
         uuid := none
         mountpoint := none
         size := "256G" },
       { path := "/dev/sda2"
         fstype := some "swap"
         label := none
         uuid := some "EEEE-FFFF"
         mountpoint := none
         size := "8G" },
       entryUsb] }

theorem C6_enumeration_filters_exactly_witness :
    handled_devices filterWorld = Except.ok [usbDevice] ∧
    ((∀ d ∈ [usbDevice],
        d.filesystem ≠ none ∧ d.filesystem ≠ some "swap") ∧
     (∀ e ∈ filterWorld.lsblkEntries,
        e.fstype ≠ none → e.fstype ≠ some "swap" →
        mkDevice filterWorld.mtimeOf e ∈ [usbDevice])) :=
  ⟨rfl, C6_enumeration_filters_exactly filterWorld [usbDevice] rfl⟩

/-- Claim C8: a device mounted at the root directory is never an unmount
candidate; and when every enumerated device is unmounted or mounted at the
root, the unmount subcommand reports no device to unmount at Info severity
and returns without any privileged command. -/
theorem C8_root_mount_never_offered (w : World) (devs : List Device)
    (h : handled_devices w = Except.ok devs) :
    (∀ d ∈ unmount_candidates devs, d.mountpoint ≠ some "/") ∧
    ((∀ d ∈ devs, d.mountpoint = none ∨ d.mountpoint = some "/") →
      select_and_unmount w =
        { ranLsblk := true, privRequests := [],
          messages := [("No device to unmount", MessageType.Info)],
          outcome := RunOutcome.finished }) := by
  constructor
  · intro d hd
    rw [unmount_candidates, List.mem_filter] at hd
    have h2 := hd.2
    rw [Bool.and_eq_true] at h2
    replace h2 := h2.2
    intro hcontra
    rw [hcontra] at h2
    simp at h2
  · intro hall
    have hempty : unmount_candidates devs = [] := by
      rw [unmount_candidates, List.filter_eq_nil_iff]
      intro d hd
      rcases hall d hd with hmp | hmp
      · simp [Device.mounted, hmp]
      · simp [hmp]
    simp [select_and_unmount, h, hempty]

/-- The root filesystem's partition as lsblk reports it. -/
def entryRoot : LsblkEntry :=
  { path := "/dev/sda3"
    fstype := some "ext4"
    label := none
    uuid := some "1111-2222"
    mountpoint := some "/"
    size := "100G" }

/-- The device built from the root partition row. -/
def rootDevice : Device :=
  mkDevice (fun _ => some 0) entryRoot

/-- A world in which the only enumerated device is mounted at the root. -/
def rootOnlyWorld : World :=
  { baseWorld with lsblkEntries := [entryRoot] }

theorem C8_root_mount_never_offered_witness :
    handled_devices rootOnlyWorld = Except.ok [rootDevice] ∧
    (∀ d ∈ [rootDevice], d.mountpoint = none ∨ d.mountpoint = some "/") ∧
    select_and_unmount rootOnlyWorld =
      { ranLsblk := true, privRequests := [],
        messages := [("No device to unmount", MessageType.Info)],
        outcome := RunOutcome.finished } :=
  ⟨rfl,
   by
     intro d hd
     rw [List.mem_singleton] at hd
     subst hd
     exact Or.inr rfl,
   (C8_root_mount_never_offered rootOnlyWorld [rootDevice] rfl).2
     (by
       intro d hd
       rw [List.mem_singleton] at hd
       subst hd
       exact Or.inr rfl)⟩

/-- Anything choose_device returns is one of the offered devices: the menu
dict's values all come from the zipped device list. -/
theorem choose_device_mem (w : World) (l : List Device) (d : Device)
    (h : choose_device w l = some d) : d ∈ l := by
  unfold choose_device at h
  split at h
  · unfold dict_get at h
    cases hf : ((w.render l).zip l).reverse.find? (fun p => p.1 == w.dmenuOut) with
    | none => rw [hf] at h; cases h
    | some p =>
      obtain ⟨k, v⟩ := p
      simp [hf] at h
      have hp : (k, v) ∈ ((w.render l).zip l).reverse :=
        List.mem_of_find?_eq_some hf
      rw [List.mem_reverse] at hp
      rw [← h]
      exact (List.of_mem_zip hp).2
  · cases h

/-- Every command the mount tail hands to call_privileged_command is the
mount command for the selected device's path at /mnt. -/
theorem mount_after_selection_priv (w : World)
    (rules : Option (List MountRule)) (sel : Device) :
    ∀ cmd ∈ (mount_after_selection w rules sel).privRequests,
      ∃ extra, cmd = ["mount"] ++ extra ++ ["--", sel.path, "/mnt"] := by
  intro cmd hcmd
  unfold mount_after_selection at hcmd
  cases hm : match_rules rules sel with
  | error a => cases a <;> simp [hm] at hcmd
  | ok extra =>
    simp [hm] at hcmd
    exact ⟨extra, by simp [hcmd]⟩

/-- Every command the unmount tail hands to call_privileged_command is the
umount command for the selected device's path. -/
theorem unmount_after_selection_priv (w : World) (sel : Device) :
    ∀ cmd ∈ (unmount_after_selection w sel).privRequests,
      cmd = ["umount", "--", sel.path] := by
  intro cmd hcmd
  unfold unmount_after_selection at hcmd
  simp at hcmd
  exact hcmd

/-- Claim C10: whenever enumeration succeeds, any command that the mount
flow hands to the privilege escalator targets an enumerated device with no
mount point, and any command the unmount flow hands over targets an
enumerated device with a present mount point. -/
theorem C10_privileged_commands_target_candidates (w : World)
    (rules : Option (List MountRule)) (devs : List Device)
    (h : handled_devices w = Except.ok devs) :
    (∀ cmd ∈ (select_and_mount w rules).privRequests,
      ∃ extra d, d ∈ devs ∧ d.mountpoint = none ∧
        cmd = ["mount"] ++ extra ++ ["--", d.path, "/mnt"]) ∧
    (∀ cmd ∈ (select_and_unmount w).privRequests,
      ∃ d, d ∈ devs ∧ d.mountpoint.isSome = true ∧
        cmd = ["umount", "--", d.path]) := by
  constructor
  · intro cmd hcmd
    unfold select_and_mount at hcmd
    by_cases hb : w.mntIsMount
    · simp [hb] at hcmd
    · simp only [hb, if_false, h] at hcmd
      by_cases hemp : (mount_candidates devs).isEmpty
      · simp [hemp] at hcmd
      · simp only [hemp, if_false] at hcmd
        cases hch : choose_device w (mount_candidates devs) with
        | none => simp [hch] at hcmd
        | some sel =>
          simp only [hch] at hcmd
          obtain ⟨extra, hshape⟩ :=
            mount_after_selection_priv w rules sel cmd hcmd
          have hmem := choose_device_mem w _ sel hch
          rw [mount_candidates, List.mem_filter] at hmem
          refine ⟨extra, sel, hmem.1, ?_, hshape⟩
          have hmt := hmem.2
          cases hmp : sel.mountpoint with
          | none => rfl
          | some s => simp [Device.mounted, hmp] at hmt
  · intro cmd hcmd
    unfold select_and_unmount at hcmd
    simp only [h] at hcmd
    by_cases hemp : (unmount_candidates devs).isEmpty
    · simp [hemp] at hcmd
    · simp only [hemp, if_false] at hcmd
      cases hch : choose_device w (unmount_candidates devs) with
      | none => simp [hch] at hcmd
      | some sel =>
        simp only [hch] at hcmd
        have hshape := unmount_after_selection_priv w sel cmd hcmd
        have hmem := choose_device_mem w _ sel hch
        rw [unmount_candidates, List.mem_filter] at hmem
        have hmt := hmem.2
        rw [Bool.and_eq_true] at hmt
        replace hmt := hmt.1
        rw [Device.mounted] at hmt
        exact ⟨sel, hmem.1, hmt, hshape⟩

/-- A mounted data partition as lsblk reports it. -/
def entryMounted : LsblkEntry :=
  { path := "/dev/sdc1"
    fstype := some "ext4"
    label := some "DATA"
    uuid := some "3333-4444"
    mountpoint := some "/media/data"
    size := "1T" }

/-- The device built from the mounted data partition row. -/
def dataDevice : Device :=
  mkDevice (fun _ => some 0) entryMounted

/-- A world holding one unmounted and one mounted device, with a menu
rendering that makes the single row pick land on the sole candidate of
either flow. -/
def bothFlowsWorld : World :=
  { baseWorld with
    lsblkEntries := [entryUsb, entryMounted]
    render := fun devs => devs.map (fun _ => "pick")
    dmenuOut := "pick" }

theorem C10_privileged_commands_target_candidates_witness :
    handled_devices bothFlowsWorld = Except.ok [usbDevice, dataDevice] ∧
    (select_and_mount bothFlowsWorld (some [])).privRequests =
      [["mount", "--", "/dev/sdb1", "/mnt"]] ∧
    (select_and_unmount bothFlowsWorld).privRequests =
      [["umount", "--", "/dev/sdc1"]] ∧
    ((∀ cmd ∈ (select_and_mount bothFlowsWorld (some [])).privRequests,
        ∃ extra d, d ∈ [usbDevice, dataDevice] ∧ d.mountpoint = none ∧
          cmd = ["mount"] ++ extra ++ ["--", d.path, "/mnt"]) ∧
     (∀ cmd ∈ (select_and_unmount bothFlowsWorld).privRequests,
        ∃ d, d ∈ [usbDevice, dataDevice] ∧ d.mountpoint.isSome = true ∧
          cmd = ["umount", "--", d.path])) :=
  ⟨rfl, rfl, rfl,
   C10_privileged_commands_target_candidates bothFlowsWorld (some [])
     [usbDevice, dataDevice] rfl⟩

end DmenuMounter
